import Mathlib

/-!
Verification of the fastapi-boilerplates example repository.

This file shallowly embeds the Python request handlers of the repository in
Lean 4 and proves (or refutes) the claims of the natural-language spec.

Conventions of the embedding:
* Python exceptions become the inductive type `Exc`; raising is `Except.error`.
* A Python `try: body except M1: a1 ... except Mn: an` block becomes
  `runChain` over a list of `Clause`s applied to the exception produced by the
  body (each `except` clause of the repository either re-raises the caught
  exception or raises a new `HTTPException`, so a clause action is `Exc → Exc`).
* Machine floats of the source (`price`, `cost`) are embedded as exact
  rationals `ℚ`; `round(v, 2)` is embedded as exact half-to-even rounding at
  two decimals.
* The mocked MongoDB collections become explicit Lean lists that are passed
  and returned, so reads and writes of shared state are visible in the types.
-/

namespace FastapiBoilerplates

/-- Python exceptions that occur in the repository.  `http` is FastAPI's
`HTTPException (status_code, detail)`; the named constructors are the
exception classes that some `except` clause of the repository names;
`otherExc excClass msg` stands for any other exception (class name, `str(e)`). -/
inductive Exc where
  | http (statusCode : Nat) (detail : String)
  | connectionError (msg : String)
  | valueError (msg : String)
  | invalidProductIDError (msg : String)
  | productNotFoundError (msg : String)
  | jwtExpiredSignatureError (msg : String)
  | jwtError (msg : String)
  | otherExc (excClass : String) (msg : String)
deriving DecidableEq, Repr

/-- `str(e)` of an exception: for `HTTPException` Python would print the
status, but the repository only ever interpolates `str(e)` of non-HTTP
exceptions; we return the payload message. -/
def Exc.pyStr : Exc → String
  | .http _ d => d
  | .connectionError m => m
  | .valueError m => m
  | .invalidProductIDError m => m
  | .productNotFoundError m => m
  | .jwtExpiredSignatureError m => m
  | .jwtError m => m
  | .otherExc _ m => m

/-- The exception classes matched by the `except` clauses appearing in the
repository.  `mException` is Python's `except Exception`, which catches every
exception modelled here (all of them subclass `Exception`);
`mJWTError` also catches `jwt.ExpiredSignatureError`, which subclasses
`jwt.JWTError` in python-jose. -/
inductive Matcher where
  | mHTTPException
  | mConnectionError
  | mValueError
  | mInvalidProductIDError
  | mProductNotFoundError
  | mJWTExpiredSignatureError
  | mJWTError
  | mException
deriving DecidableEq, Repr

/-- Whether an `except M:` clause catches exception `e` (Python subclass
semantics restricted to the classes used by the repository). -/
def Matcher.catches : Matcher → Exc → Bool
  | .mHTTPException, .http _ _ => true
  | .mHTTPException, _ => false
  | .mConnectionError, .connectionError _ => true
  | .mConnectionError, _ => false
  | .mValueError, .valueError _ => true
  | .mValueError, _ => false
  | .mInvalidProductIDError, .invalidProductIDError _ => true
  | .mInvalidProductIDError, _ => false
  | .mProductNotFoundError, .productNotFoundError _ => true
  | .mProductNotFoundError, _ => false
  | .mJWTExpiredSignatureError, .jwtExpiredSignatureError _ => true
  | .mJWTExpiredSignatureError, _ => false
  | .mJWTError, .jwtExpiredSignatureError _ => true
  | .mJWTError, .jwtError _ => true
  | .mJWTError, _ => false
  | .mException, _ => true

/-- One `except` clause: which exceptions it catches and the exception it
(re)raises.  Every `except` body in the repository ends by raising: either
the caught exception itself (`action = id`) or a fresh `HTTPException`. -/
structure Clause where
  matcher : Matcher
  action : Exc → Exc

/-- Python semantics of an `except` clause chain: the first clause whose class
matches handles the exception; with no matching clause the exception
propagates unchanged to the caller. -/
def runChain : List Clause → Exc → Exc
  | [], e => e
  | c :: rest, e => if c.matcher.catches e then c.action e else runChain rest e

/-- The request handlers (and the one dependency with its own `try` block)
of the repository that are modelled at the exception-flow level.
Prefixes: `em` = error-handling/error_handlers.py, `te` =
try-except-block-best-practices/example.py, `sp` =
search-routes-with-pagination-best-practices/example.py, `lg` =
logger/example.py, `hc` = header-cookie-depends-best-practices/example.py. -/
inductive HandlerId where
  | emCreateUser
  | emGetProduct
  | emGetOrder
  | emProcessPayment
  | emBadErrorHandling
  | emGoodErrorHandling
  | emHealthCheck
  | teGetProductById
  | teCreateOrder
  | teGetProductDetails
  | teGetWeather
  | teUploadFile
  | teCreateProduct
  | spListProductsBasic
  | spFilterProducts
  | spSearchProducts
  | spListProductsCursor
  | spAutocompleteProducts
  | spInfiniteScroll
  | spFacetedSearch
  | lgProcessItem
  | hcGetCurrentUser
deriving DecidableEq, Repr

/-- The `except` clause chain of each handler's outermost `try` block,
transcribed from the source.  Handlers without a `try` block (`emHealthCheck`)
get the empty chain (exceptions propagate). -/
def handlerChain : HandlerId → List Clause
  | .emCreateUser =>
      [⟨.mHTTPException, id⟩,
       ⟨.mException, fun _ => .http 500 "An error occurred while creating the user"⟩]
  | .emGetProduct =>
      [⟨.mConnectionError,
        fun _ => .http 503 "Service temporarily unavailable. Please try again later."⟩,
       ⟨.mException, fun _ => .http 500 "An error occurred while retrieving the product"⟩]
  | .emGetOrder =>
      [⟨.mHTTPException, id⟩,
       ⟨.mException, fun _ => .http 500 "An error occurred while retrieving the order"⟩]
  | .emProcessPayment =>
      [⟨.mValueError,
        fun _ => .http 402 "Payment could not be processed. Please try a different card."⟩,
       ⟨.mException, fun _ => .http 500 "Payment processing failed. Please try again later."⟩]
  | .emBadErrorHandling =>
      [⟨.mException, fun e => .http 500 ("Error: " ++ e.pyStr)⟩]
  | .emGoodErrorHandling =>
      [⟨.mValueError, fun _ => .http 400 "Invalid data provided"⟩,
       ⟨.mConnectionError, fun _ => .http 503 "Service temporarily unavailable"⟩,
       ⟨.mException, fun _ => .http 500 "An error occurred processing your request"⟩]
  | .emHealthCheck => []
  | .teGetProductById =>
      [⟨.mHTTPException, id⟩,
       ⟨.mException, fun _ => .http 500 "Internal server error"⟩]
  | .teCreateOrder =>
      [⟨.mHTTPException, id⟩,
       ⟨.mException, fun _ => .http 500 "Internal server error"⟩]
  | .teGetProductDetails =>
      [⟨.mInvalidProductIDError, fun e => .http 400 e.pyStr⟩,
       ⟨.mProductNotFoundError, fun e => .http 404 e.pyStr⟩,
       ⟨.mException, fun _ => .http 500 "Internal server error"⟩]
  | .teGetWeather =>
      [⟨.mHTTPException, id⟩,
       ⟨.mException, fun _ => .http 500 "Internal server error"⟩]
  | .teUploadFile =>
      [⟨.mHTTPException, id⟩,
       ⟨.mException, fun _ => .http 500 "Internal server error"⟩]
  | .teCreateProduct =>
      [⟨.mHTTPException, id⟩,
       ⟨.mException, fun _ => .http 500 "Internal server error"⟩]
  | .spListProductsBasic =>
      [⟨.mException, fun _ => .http 500 "Failed to retrieve products"⟩]
  | .spFilterProducts =>
      [⟨.mException, fun _ => .http 500 "Failed to filter products"⟩]
  | .spSearchProducts =>
      [⟨.mException, fun _ => .http 500 "Search operation failed"⟩]
  | .spListProductsCursor =>
      [⟨.mHTTPException, id⟩,
       ⟨.mException, fun _ => .http 500 "Failed to retrieve products"⟩]
  | .spAutocompleteProducts =>
      [⟨.mException, fun _ => .http 500 "Autocomplete failed"⟩]
  | .spInfiniteScroll =>
      [⟨.mHTTPException, id⟩,
       ⟨.mException, fun _ => .http 500 "Failed to load more items"⟩]
  | .spFacetedSearch =>
      [⟨.mException, fun _ => .http 500 "Faceted search failed"⟩]
  | .lgProcessItem =>
      [⟨.mValueError, fun e => .http 400 e.pyStr⟩,
       ⟨.mException, fun _ => .http 500 "Internal server error"⟩]
  | .hcGetCurrentUser =>
      [⟨.mJWTExpiredSignatureError, fun _ => .http 401 "Token has expired"⟩,
       ⟨.mJWTError, fun _ => .http 401 "Invalid token"⟩]

/-- Which exceptions the outermost `try` body of each handler can raise,
read off the source: the `raise HTTPException` statements of the body (for
nested `try`s, the outputs of the inner clause chains), the named exception
classes its statements can raise, and `otherExc` whenever the body performs
library or I/O calls that may fail arbitrarily.  `emHealthCheck` has no
`try` block and a body that cannot raise; `emBadErrorHandling`'s body always
raises exactly `ZeroDivisionError("division by zero")` (from `1 / 0`). -/
def canRaise : HandlerId → Exc → Bool
  | .emCreateUser, .http 400 _ => true
  | .emCreateUser, .otherExc _ _ => true
  | .emGetProduct, .connectionError _ => true
  | .emGetProduct, .otherExc _ _ => true
  | .emGetOrder, .http 404 _ => true
  | .emGetOrder, .otherExc _ _ => true
  | .emProcessPayment, .valueError _ => true
  | .emProcessPayment, .otherExc _ _ => true
  | .emBadErrorHandling, .otherExc "ZeroDivisionError" "division by zero" => true
  | .emGoodErrorHandling, .valueError _ => true
  | .emGoodErrorHandling, .connectionError _ => true
  | .emGoodErrorHandling, .otherExc _ _ => true
  | .emHealthCheck, _ => false
  | .teGetProductById, .http 400 _ => true
  | .teGetProductById, .http 404 _ => true
  | .teGetProductById, .otherExc _ _ => true
  | .teCreateOrder, .http _ _ => true
  | .teCreateOrder, .otherExc _ _ => true
  | .teGetProductDetails, .invalidProductIDError _ => true
  | .teGetProductDetails, .productNotFoundError _ => true
  | .teGetProductDetails, .otherExc _ _ => true
  | .teGetWeather, .http _ _ => true
  | .teGetWeather, .otherExc _ _ => true
  | .teUploadFile, .http _ _ => true
  | .teUploadFile, .otherExc _ _ => true
  | .teCreateProduct, .http 400 _ => true
  | .teCreateProduct, .otherExc _ _ => true
  | .spListProductsBasic, .otherExc _ _ => true
  | .spFilterProducts, .otherExc _ _ => true
  | .spSearchProducts, .otherExc _ _ => true
  | .spListProductsCursor, .http 400 "Invalid cursor format" => true
  | .spListProductsCursor, .otherExc _ _ => true
  | .spAutocompleteProducts, .otherExc _ _ => true
  | .spInfiniteScroll, .http 400 "Invalid last_id" => true
  | .spInfiniteScroll, .otherExc _ _ => true
  | .spFacetedSearch, .otherExc _ _ => true
  | .lgProcessItem, .valueError _ => true
  | .lgProcessItem, .otherExc _ _ => true
  | .hcGetCurrentUser, .http 401 _ => true
  | .hcGetCurrentUser, .http 403 _ => true
  | .hcGetCurrentUser, .jwtExpiredSignatureError _ => true
  | .hcGetCurrentUser, .jwtError _ => true
  | _, _ => false

/-- The fixed detail string each handler's catch-all `except Exception`
clause uses (empty for the handlers without a catch-all clause:
`emHealthCheck` and `hcGetCurrentUser`, whose bodies raise no unexpected
exception, and for the anti-pattern `emBadErrorHandling`, whose detail is
not fixed). -/
def genericDetail : HandlerId → String
  | .emCreateUser => "An error occurred while creating the user"
  | .emGetProduct => "An error occurred while retrieving the product"
  | .emGetOrder => "An error occurred while retrieving the order"
  | .emProcessPayment => "Payment processing failed. Please try again later."
  | .emBadErrorHandling => ""
  | .emGoodErrorHandling => "An error occurred processing your request"
  | .emHealthCheck => ""
  | .teGetProductById => "Internal server error"
  | .teCreateOrder => "Internal server error"
  | .teGetProductDetails => "Internal server error"
  | .teGetWeather => "Internal server error"
  | .teUploadFile => "Internal server error"
  | .teCreateProduct => "Internal server error"
  | .spListProductsBasic => "Failed to retrieve products"
  | .spFilterProducts => "Failed to filter products"
  | .spSearchProducts => "Search operation failed"
  | .spListProductsCursor => "Failed to retrieve products"
  | .spAutocompleteProducts => "Autocomplete failed"
  | .spInfiniteScroll => "Failed to load more items"
  | .spFacetedSearch => "Faceted search failed"
  | .lgProcessItem => "Internal server error"
  | .hcGetCurrentUser => ""

/-! ## Search & pagination (search-routes-with-pagination-best-practices/example.py)

The mocked MongoDB `products` collection is embedded as a list of
`ProductDoc`s; `ObjectId`s become natural numbers (MongoDB orders `_id`
monotonically, which the cursor endpoints rely on), `datetime` becomes an
integer timestamp, `float` prices become `ℚ`. -/

/-- A document of the `products` collection (class `Product(Document)`). -/
structure ProductDoc where
  id : Nat
  name : String
  description : String
  category : String
  price : ℚ
  stock : Int
  tags : List String
  is_active : Bool
  created_at : Int
deriving DecidableEq, Repr

/-- Insert `p` into a list sorted by ascending `id` (helper of `sortById`). -/
def insertById (p : ProductDoc) : List ProductDoc → List ProductDoc
  | [] => [p]
  | q :: rest => if p.id ≤ q.id then p :: q :: rest else q :: insertById p rest

/-- `query.sort("+_id")`: the matching documents in ascending `_id` order. -/
def sortById : List ProductDoc → List ProductDoc
  | [] => []
  | p :: rest => insertById p (sortById rest)

/-- Insert `p` into a list sorted by descending `created_at`. -/
def insertByCreatedDesc (p : ProductDoc) : List ProductDoc → List ProductDoc
  | [] => [p]
  | q :: rest =>
      if q.created_at ≤ p.created_at then p :: q :: rest
      else q :: insertByCreatedDesc p rest

/-- `query.sort("-created_at")`: the matching documents in descending
`created_at` order. -/
def sortByCreatedDesc : List ProductDoc → List ProductDoc
  | [] => []
  | p :: rest => insertByCreatedDesc p (sortByCreatedDesc rest)

/-- `math.ceil(total / page_size)` for natural `total` and positive natural
`page_size` (the float division of the source is exact in this range, so the
ceiling of the rational quotient is the faithful embedding). -/
def ceilDivNat (a b : Nat) : Nat := (a + b - 1) / b

/-- `total_pages = math.ceil(total / page_size) if total > 0 else 1`, the
line shared by `list_products_basic`, `filter_products` and
`search_products`. -/
def totalPagesCode (total page_size : Nat) : Nat :=
  if 0 < total then ceilDivNat total page_size else 1

/-- The generic `PaginatedResponse` schema (items specialised to the raw
documents; the response-model projection does not affect any claim). -/
structure PaginatedResponse where
  total : Nat
  page : Nat
  page_size : Nat
  total_pages : Nat
  has_next : Bool
  has_prev : Bool
  items : List ProductDoc
deriving DecidableEq, Repr

/-- The reusable `PaginationParams` dependency of the search/pagination file:
its `__init__` stores `page`, `page_size` and `skip = (page - 1) * page_size`. -/
structure PaginationParams where
  page : Nat
  page_size : Nat
  skip : Nat
deriving DecidableEq, Repr

/-- `PaginationParams.__init__` (FastAPI guarantees `page ≥ 1` and
`1 ≤ page_size ≤ 100` via the `Query(ge=..., le=...)` bounds before the
constructor runs). -/
def PaginationParams.init (page page_size : Nat) : PaginationParams :=
  ⟨page, page_size, (page - 1) * page_size⟩

/-- The `PaginationParams` model of path-query-body-best-practices/example.py
(fields `page` and `limit`). -/
structure PaginationParamsPQ where
  page : Nat
  limit : Nat
deriving DecidableEq, Repr

/-- `PaginationParams.get_skip` of path-query-body-best-practices/example.py. -/
def PaginationParamsPQ.get_skip (p : PaginationParamsPQ) : Nat :=
  (p.page - 1) * p.limit

/-- `GET /api/products/basic` (`list_products_basic`): filter the active
products, count them, sort by descending `created_at`, and slice with
`skip = (page - 1) * page_size` and `limit = page_size`. -/
def list_products_basic (db : List ProductDoc) (page page_size : Nat) :
    PaginatedResponse :=
  let skip := (page - 1) * page_size
  let total := (db.filter (·.is_active)).length
  let products :=
    (((sortByCreatedDesc (db.filter (·.is_active))).drop skip).take page_size)
  let total_pages := totalPagesCode total page_size
  { total := total
    page := page
    page_size := page_size
    total_pages := total_pages
    has_next := decide (page < total_pages)
    has_prev := decide (1 < page)
    items := products }

/-- `GET /api/products/filter` (`filter_products`).  The compiled MongoDB
conditions built by `ProductFilters.build_conditions` and the selected sort
order are abstracted as parameters `cond` and `sortFn`: the claims about this
handler concern only the pagination metadata and the slice bounds, which are
independent of the particular filter and sort. -/
def filter_products (db : List ProductDoc) (cond : ProductDoc → Bool)
    (sortFn : List ProductDoc → List ProductDoc) (pagination : PaginationParams) :
    PaginatedResponse :=
  let matching := db.filter cond
  let total := matching.length
  let products := ((sortFn matching).drop pagination.skip).take pagination.page_size
  let total_pages := totalPagesCode total pagination.page_size
  { total := total
    page := pagination.page
    page_size := pagination.page_size
    total_pages := total_pages
    has_next := decide (pagination.page < total_pages)
    has_prev := decide (1 < pagination.page)
    items := products }

/-- `GET /api/products/search` (`search_products`): like `filter_products`
but the condition `Product.is_active == True` is always appended, and `skip`
is computed inline as `(page - 1) * page_size`. -/
def search_products (db : List ProductDoc) (cond : ProductDoc → Bool)
    (sortFn : List ProductDoc → List ProductDoc) (page page_size : Nat) :
    PaginatedResponse :=
  let matching := db.filter (fun p => cond p && p.is_active)
  let total := matching.length
  let skip := (page - 1) * page_size
  let products := ((sortFn matching).drop skip).take page_size
  let total_pages := totalPagesCode total page_size
  { total := total
    page := page
    page_size := page_size
    total_pages := total_pages
    has_next := decide (page < total_pages)
    has_prev := decide (1 < page)
    items := products }

/-- The `CursorPaginatedResponse` schema (`next_cursor` is the string form
of the last returned `_id`). -/
structure CursorPaginatedResponse where
  items : List ProductDoc
  next_cursor : Option String
  has_more : Bool
  count : Nat
deriving DecidableEq, Repr

/-- `GET /api/products/cursor` (`list_products_cursor`), happy path (cursor
absent or already parsed to an id; the invalid-cursor `400` branch is covered
by the exception-flow model `handlerChain .spListProductsCursor`): filter by
`is_active`, optional `category` equality and `Product.id > cursor`, sort by
ascending `_id`, fetch `limit + 1` documents, truncate to `limit`, and emit
`has_more` / `next_cursor` exactly as the source does.  `cursorCond` is the
conjunction of conditions the handler builds before querying. -/
def cursorCond (cursor : Option Nat) (category : Option String)
    (p : ProductDoc) : Bool :=
  p.is_active &&
    (match category with
      | none => true
      | some c => p.category == c) &&
    (match cursor with
      | none => true
      | some cid => decide (cid < p.id))

def list_products_cursor (db : List ProductDoc) (cursor : Option Nat)
    (limit : Nat) (category : Option String) : CursorPaginatedResponse :=
  let fetched := (sortById (db.filter (cursorCond cursor category))).take (limit + 1)
  let products := if limit < fetched.length then fetched.take limit else fetched
  let next_cursor :=
    if limit < fetched.length then products.getLast?.map (fun p => toString p.id)
    else none
  { items := products
    next_cursor := next_cursor
    has_more := decide (limit < fetched.length)
    count := products.length }

/-! ## Computed fields (computed-field-best-practices/example.py) -/

/-- `str.title()` over the characters (ASCII-cased, as all example data is):
a cased character starts a word after a non-cased character and is
uppercased; later cased characters of the word are lowercased. -/
def titleChars : Bool → List Char → List Char
  | _, [] => []
  | prevAlpha, c :: rest =>
      if c.isAlpha then
        (if prevAlpha then c.toLower else c.toUpper) :: titleChars true rest
      else
        c :: titleChars false rest

/-- `str.strip()`: drop leading and trailing whitespace. -/
def stripChars (l : List Char) : List Char :=
  ((l.dropWhile Char.isWhitespace).reverse.dropWhile Char.isWhitespace).reverse

/-- The `normalize_text` field validator: `v.strip().title()`. -/
def normalize_text (v : String) : String :=
  ⟨titleChars false (stripChars v.data)⟩

/-- Round a rational to the nearest integer, ties to even (the rounding mode
of Python's `round`; the binary-float representation error of the source is
not modelled, values are exact rationals). -/
def roundHalfEven (q : ℚ) : ℤ :=
  let f := Rat.floor q
  let r := q - (f : ℚ)
  if r < 1 / 2 then f
  else if 1 / 2 < r then f + 1
  else if f % 2 = 0 then f else f + 1

/-- The `round_money` field validator: `round(v, 2)`. -/
def round2 (q : ℚ) : ℚ := (roundHalfEven (q * 100) : ℚ) / 100

/-- The `Product` Beanie document of the computed-field example.  The
`last_updated` timestamp set by the `update_timestamp` model validator is not
modelled (wall-clock time; no claim mentions it). -/
structure Product where
  name : String
  category : String
  price : ℚ
  quantity : Int
  cost : ℚ
  low_stock_threshold : Int
deriving DecidableEq, Repr

/-- Pydantic construction of a `Product`: per-field declarative constraints
(`min_length`/`max_length`/`gt`/`ge`) are checked on the raw input of each
field, then the field validators `normalize_text` and `round_money`
transform it, and finally the `validate_profit_margin` model validator
rejects the instance when `price < cost`.  A raised `ValidationError` is
`none`. -/
def Product.validate (name category : String) (price : ℚ) (quantity : Int)
    (cost : ℚ) (low_stock_threshold : Int) : Option Product :=
  if ¬(1 ≤ name.length ∧ name.length ≤ 150) then none
  else if ¬(1 ≤ category.length ∧ category.length ≤ 150) then none
  else if ¬(0 < price) then none
  else if ¬(0 ≤ quantity) then none
  else if ¬(0 < cost) then none
  else if ¬(0 ≤ low_stock_threshold) then none
  else
    let p : Product :=
      { name := normalize_text name
        category := normalize_text category
        price := round2 price
        quantity := quantity
        cost := round2 cost
        low_stock_threshold := low_stock_threshold }
    if p.price < p.cost then none else some p

/-- The per-field (declarative) validation of `Product`, with no cross-field
constraint: exactly the `Field(...)` bounds of the source, used to state what
the spec claims construction accepts. -/
def Product.fieldBoundsOk (name category : String) (price : ℚ) (quantity : Int)
    (cost : ℚ) (low_stock_threshold : Int) : Prop :=
  (1 ≤ name.length ∧ name.length ≤ 150) ∧
  (1 ≤ category.length ∧ category.length ≤ 150) ∧
  0 < price ∧ 0 ≤ quantity ∧ 0 < cost ∧ 0 ≤ low_stock_threshold

instance (name category : String) (price : ℚ) (quantity : Int) (cost : ℚ)
    (low_stock_threshold : Int) :
    Decidable (Product.fieldBoundsOk name category price quantity cost
      low_stock_threshold) := by
  unfold Product.fieldBoundsOk
  infer_instance

/-- Computed field `in_stock`: `self.quantity > 0`. -/
def Product.in_stock (p : Product) : Bool := decide (0 < p.quantity)

/-- Computed field `stock_status`. -/
def Product.stock_status (p : Product) : String :=
  if p.quantity = 0 then "out_of_stock"
  else if p.quantity ≤ p.low_stock_threshold then "low_stock"
  else "in_stock"

/-- Computed field `total_value`: `round(self.cost * self.quantity, 2)`. -/
def Product.total_value (p : Product) : ℚ := round2 (p.cost * (p.quantity : ℚ))

/-- Computed field `profit_margin`. -/
def Product.profit_margin (p : Product) : ℚ :=
  if p.price = 0 then 0
  else round2 ((p.price - p.cost) / p.price * 100)

/-- Lookup in an association-list embedding of a mocked keyed collection. -/
def assocFind {α : Type} : List (String × α) → String → Option α
  | [], _ => none
  | (k, v) :: rest, key => if k = key then some v else assocFind rest key

/-- Replace the value stored under `key` (the persisted effect of
`product.save()` on the collection). -/
def assocSet {α : Type} : List (String × α) → String → α → List (String × α)
  | [], _, _ => []
  | (k, v) :: rest, key, v' =>
      if k = key then (k, v') :: rest else (k, v) :: assocSet rest key v'

/-- `POST /products/{product_id}/adjust-stock` (`adjust_stock`): load the
product, compute `new_quantity = quantity + adjustment`, reject with `400`
when it is negative (leaving the collection untouched), otherwise persist the
new quantity.  Returns the handler outcome and the collection afterwards.
(Beanie's `save()` does not re-run the model validators, so the assignment
`product.quantity = new_quantity` is persisted as is.) -/
def adjust_stock (db : List (String × Product)) (product_id : String)
    (adjustment : Int) : Except Exc Product × List (String × Product) :=
  match assocFind db product_id with
  | none => (.error (.http 404 "Product not found"), db)
  | some product =>
      let new_quantity := product.quantity + adjustment
      if new_quantity < 0 then
        (.error (.http 400 ("Cannot remove " ++ toString adjustment.natAbs ++
          " items. Only " ++ toString product.quantity ++ " in stock.")), db)
      else
        let product' := { product with quantity := new_quantity }
        (.ok product', assocSet db product_id product')

/-! ## Cross-field schema validators (fastapi-schemas-best-practices/example.py) -/

/-- `DateRangeFilter`: datetimes are embedded as integer timestamps in
seconds; `(end_date - start_date).days` is the floor of the second count
divided by 86400 (the difference is positive whenever it is computed). -/
def DateRangeFilter.validate (start_date end_date : Int) : Option (Int × Int) :=
  if end_date ≤ start_date then none
  else if 365 < (end_date - start_date) / 86400 then none
  else some (start_date, end_date)

/-- `PasswordReset`: per-field length bounds, the `validate_password`
strength field validator on `new_password`, then the `passwords_match`
model validator. -/
def PasswordReset.validate (new_password confirm_password : String) :
    Option (String × String) :=
  if ¬(8 ≤ new_password.length ∧ new_password.length ≤ 100) then none
  else if ¬(new_password.data.any Char.isUpper) then none
  else if ¬(new_password.data.any Char.isLower) then none
  else if ¬(new_password.data.any Char.isDigit) then none
  else if ¬(8 ≤ confirm_password.length ∧ confirm_password.length ≤ 100) then none
  else if new_password ≠ confirm_password then none
  else some (new_password, confirm_password)

/-! ## Custom domain exceptions (try-except-block-best-practices/example.py) -/

/-- The mock `Product` pydantic model of the try-except example file. -/
structure PyProduct where
  id : String
  name : String
  price : ℚ
  stock : Int
deriving DecidableEq, Repr

/-- `get_product_or_fail`: raises `InvalidProductIDError` when
`not product_id or len(product_id) < 3` (equivalently `len < 3`), otherwise
`ProductNotFoundError` (the mock lookup always yields `None`). -/
def get_product_or_fail (product_id : String) : Except Exc PyProduct :=
  if product_id.length < 3 then
    .error (.invalidProductIDError ("Invalid product ID: " ++ product_id))
  else
    .error (.productNotFoundError ("Product " ++ product_id ++ " not found"))

/-- `GET /api/products/{product_id}/details` (`get_product_details`): the
body calls `get_product_or_fail` and the `except` chain of the handler maps
the outcome. -/
def get_product_details (product_id : String) : Except Exc PyProduct :=
  match get_product_or_fail product_id with
  | .ok p => .ok p
  | .error e => .error (runChain (handlerChain .teGetProductDetails) e)

/-! ## Module-level state (header-cookie-depends-best-practices/example.py) -/

/-- An entry of the module-level `MOCK_USERS` dict. -/
structure UserRec where
  id : String
  username : String
  email : String
  password : String
  role : String
  is_active : Bool
deriving DecidableEq, Repr

/-- The module-level data of the header/cookie example module:
`MOCK_USERS`, `MOCK_SESSIONS` and `VALID_API_KEYS`.  All three are
module-level mutable Python objects (two dicts and a set) that persist across
requests; handlers receive the store explicitly and return the store they
leave behind, so reads and writes are visible. -/
structure HCModuleStore where
  mock_users : List (String × UserRec)
  mock_sessions : List (String × String)
  valid_api_keys : List String
deriving DecidableEq, Repr

/-- `create_access_token` / `jwt.encode`, abstracted to an injective encoding
of the user id (the claims about this module concern state access, not
cryptography). -/
def jwtEncode (user_id : String) : String := "jwt." ++ user_id

/-- Abstract `jwt.decode`: recovers the `user_id` of a well-formed token,
fails (raising `jwt.JWTError` in the source) otherwise. -/
def jwtDecode (token : String) : Option String :=
  if "jwt.".isPrefixOf token then some (token.drop 4) else none

/-- `POST /api/auth/login` (`login`): looks the credentials up in the
module-level `MOCK_USERS` dict; on success returns the JWT (also set as the
session cookie).  The pair's second component is the module store after the
request. -/
def login (store : HCModuleStore) (username password : String) :
    Except Exc String × HCModuleStore :=
  match assocFind store.mock_users username with
  | none => (.error (.http 401 "Incorrect username or password"), store)
  | some u =>
      if u.password ≠ password then
        (.error (.http 401 "Incorrect username or password"), store)
      else if u.is_active = false then
        (.error (.http 403 "Account is inactive"), store)
      else
        (.ok (jwtEncode u.id), store)

/-- Linear scan of `MOCK_USERS.items()` for a record with the given `id`
(the loop in `get_current_user`). -/
def findUserById : List (String × UserRec) → String → Option UserRec
  | [], _ => none
  | (_, u) :: rest, uid => if u.id = uid then some u else findUserById rest uid

/-- The `get_current_user` dependency: decode the JWT (decoding failure is
`jwt.JWTError`, mapped to `401 Invalid token` by its `except` chain; token
expiry, a wall-clock property, is not modelled), check the payload, and scan
`MOCK_USERS` for the user. -/
def get_current_user (store : HCModuleStore) (token : String) :
    Except Exc UserRec × HCModuleStore :=
  match jwtDecode token with
  | none => (.error (.http 401 "Invalid token"), store)
  | some user_id =>
      if user_id = "" then (.error (.http 401 "Invalid token payload"), store)
      else
        match findUserById store.mock_users user_id with
        | none => (.error (.http 401 "User not found"), store)
        | some u =>
            if u.is_active = false then
              (.error (.http 403 "Account is inactive"), store)
            else
              (.ok u, store)

/-- The `verify_api_key` dependency: membership test in the module-level
`VALID_API_KEYS` set. -/
def verify_api_key (store : HCModuleStore) (x_api_key : String) :
    Except Exc String × HCModuleStore :=
  if store.valid_api_keys.contains x_api_key then (.ok x_api_key, store)
  else (.error (.http 403 "Invalid API key"), store)

/-- The module store exactly as initialised by the source module. -/
def hcSourceStore : HCModuleStore where
  mock_users :=
    [("john_doe",
      { id := "user-123", username := "john_doe", email := "john@example.com"
        password := "hashed_password_here", role := "admin", is_active := true }),
     ("jane_smith",
      { id := "user-456", username := "jane_smith", email := "jane@example.com"
        password := "hashed_password_here", role := "user", is_active := true })]
  mock_sessions := []
  valid_api_keys := ["sk_live_1234567890", "sk_test_0987654321"]

/-- The same module store with `MOCK_USERS` emptied (another state the
mutable module-level dict can be in). -/
def hcEmptyUsersStore : HCModuleStore :=
  { hcSourceStore with mock_users := [] }

/-! ## Sample data used by witnesses -/

/-- A sample document of the search/pagination collection. -/
def sampleDoc : ProductDoc :=
  { id := 1, name := "Laptop", description := "A laptop", category := "electronics"
    price := 999, stock := 5, tags := [], is_active := true, created_at := 100 }

/-- A small collection with three active documents (ids 1, 2, 3). -/
def db3 : List ProductDoc :=
  [{ id := 2, name := "B", description := "", category := "electronics"
     price := 2, stock := 1, tags := [], is_active := true, created_at := 2 },
   { id := 1, name := "A", description := "", category := "electronics"
     price := 1, stock := 1, tags := [], is_active := true, created_at := 1 },
   { id := 3, name := "C", description := "", category := "electronics"
     price := 3, stock := 1, tags := [], is_active := true, created_at := 3 }]

/-- A sample `Product` of the computed-field example (already normalised). -/
def sampleProduct : Product :=
  { name := "Widget", category := "Toys", price := 10, quantity := 5
    cost := 4, low_stock_threshold := 5 }

/-! ## Arithmetic helper lemmas -/

lemma ratFloor_intCast (n : ℤ) : Rat.floor ((n : ℚ)) = n := by
  have h := Rat.floor_def' ((n : ℚ))
  rw [show ((n : ℚ)).floor = Rat.floor ((n : ℚ)) from rfl] at h
  simp at h
  exact h

lemma roundHalfEven_intCast (n : ℤ) : roundHalfEven ((n : ℚ)) = n := by
  unfold roundHalfEven
  rw [ratFloor_intCast]
  norm_num

lemma round2_intCast (n : ℤ) : round2 ((n : ℚ)) = (n : ℚ) := by
  unfold round2
  have h : ((n : ℚ)) * 100 = (((n * 100 : ℤ)) : ℚ) := by push_cast; ring
  rw [h, roundHalfEven_intCast]
  push_cast
  field_simp

/-- The spec's formula for `total_pages`, written from the claim's words:
`ceil(total / page_size)`, also at `total = 0`. -/
def ceilSpec (total page_size : Nat) : ℤ := ⌈(total : ℚ) / (page_size : ℚ)⌉

lemma le_mul_ceilDivNat (a b : ℕ) (hb : 0 < b) : a ≤ b * ceilDivNat a b := by
  unfold ceilDivNat
  obtain ⟨q, hq⟩ : ∃ q, (a + b - 1) / b = q := ⟨_, rfl⟩
  obtain ⟨r, hr⟩ : ∃ r, (a + b - 1) % b = r := ⟨_, rfl⟩
  have hd := Nat.div_add_mod (a + b - 1) b
  have hm : (a + b - 1) % b < b := Nat.mod_lt _ hb
  rw [hq, hr] at hd
  rw [hr] at hm
  rw [hq]
  have hab : 1 ≤ a + b := by omega
  zify [hab] at hd
  zify at hm ⊢
  linarith

lemma mul_pred_ceilDivNat_lt (a b : ℕ) (hb : 0 < b) (hpos : 0 < ceilDivNat a b) :
    b * (ceilDivNat a b - 1) < a := by
  unfold ceilDivNat at *
  obtain ⟨q, hq⟩ : ∃ q, (a + b - 1) / b = q := ⟨_, rfl⟩
  obtain ⟨r, hr⟩ : ∃ r, (a + b - 1) % b = r := ⟨_, rfl⟩
  have hd := Nat.div_add_mod (a + b - 1) b
  have hm : (a + b - 1) % b < b := Nat.mod_lt _ hb
  rw [hq] at hpos ⊢
  rw [hq, hr] at hd
  rw [hr] at hm
  have hab : 1 ≤ a + b := by omega
  have hq1 : 1 ≤ q := hpos
  zify [hab] at hd
  zify at hm
  zify [hq1]
  linarith

lemma ceilDivNat_cast (a b : ℕ) (hb : 0 < b) : (ceilDivNat a b : ℤ) = ceilSpec a b := by
  have hbq : (0 : ℚ) < (b : ℚ) := by exact_mod_cast hb
  unfold ceilSpec
  rw [eq_comm, Int.ceil_eq_iff]
  constructor
  · rw [lt_div_iff₀ hbq]
    rcases Nat.eq_zero_or_pos (ceilDivNat a b) with h0 | hpos
    · rw [h0]
      push_cast
      have ha : (0 : ℚ) ≤ (a : ℚ) := by positivity
      nlinarith
    · have h1 := mul_pred_ceilDivNat_lt a b hb hpos
      have hq : ((b : ℚ)) * (((ceilDivNat a b : ℕ) : ℚ) - 1) < ((a : ℕ) : ℚ) := by
        have hc : (((ceilDivNat a b - 1 : ℕ)) : ℚ) = ((ceilDivNat a b : ℕ) : ℚ) - 1 := by
          rw [Nat.cast_sub hpos]
          norm_num
        rw [← hc]
        exact_mod_cast h1
      push_cast
      nlinarith [hq]
  · rw [div_le_iff₀ hbq]
    have h2 := le_mul_ceilDivNat a b hb
    have hq : ((a : ℕ) : ℚ) ≤ ((b : ℕ) : ℚ) * ((ceilDivNat a b : ℕ) : ℚ) := by
      exact_mod_cast h2
    push_cast
    nlinarith [hq]

lemma totalPagesCode_pos (t s : ℕ) (hs : 0 < s) (ht : 0 < t) :
    (totalPagesCode t s : ℤ) = ceilSpec t s := by
  unfold totalPagesCode
  rw [if_pos ht]
  exact ceilDivNat_cast t s hs

lemma totalPagesCode_zero (s : ℕ) : totalPagesCode 0 s = 1 := rfl

/-! ## Claim theorems -/

/-- C1, counterexample: the claim says `total_pages = ceil(total / page_size)`
including the case `total = 0`, but on an empty collection (`total = 0`,
`page_size = 20`) `list_products_basic` returns `total_pages = 1` while
`ceil(0 / 20) = 0`. -/
theorem c1_total_pages_counterexample :
    (list_products_basic [] 1 20).total = 0 ∧
    (list_products_basic [] 1 20).total_pages = 1 ∧
    ceilSpec (list_products_basic [] 1 20).total 20 = 0 ∧
    ((list_products_basic [] 1 20).total_pages : ℤ) ≠
      ceilSpec (list_products_basic [] 1 20).total 20 := by
  have h0 : (list_products_basic [] 1 20).total = 0 := rfl
  have h1 : (list_products_basic [] 1 20).total_pages = 1 := rfl
  have hc : ceilSpec 0 20 = 0 := by
    unfold ceilSpec
    norm_num
  refine ⟨h0, h1, by rw [h0]; exact hc, ?_⟩
  rw [h0, h1, hc]
  decide

/-- C1 (amended): in every paginated list/filter/search response,
`total_pages` equals `ceil(total / page_size)` whenever `total > 0`, and
equals `1` when `total = 0` (where `total` is the number of matching items
and `page_size ≥ 1`). -/
theorem c1_total_pages_amended (db : List ProductDoc) (cond : ProductDoc → Bool)
    (sortFn : List ProductDoc → List ProductDoc) (page page_size : Nat)
    (hs : 1 ≤ page_size) :
    (0 < (list_products_basic db page page_size).total →
      ((list_products_basic db page page_size).total_pages : ℤ) =
        ceilSpec (list_products_basic db page page_size).total page_size) ∧
    ((list_products_basic db page page_size).total = 0 →
      (list_products_basic db page page_size).total_pages = 1) ∧
    (0 < (filter_products db cond sortFn (PaginationParams.init page page_size)).total →
      ((filter_products db cond sortFn (PaginationParams.init page page_size)).total_pages : ℤ) =
        ceilSpec (filter_products db cond sortFn (PaginationParams.init page page_size)).total
          page_size) ∧
    ((filter_products db cond sortFn (PaginationParams.init page page_size)).total = 0 →
      (filter_products db cond sortFn (PaginationParams.init page page_size)).total_pages = 1) ∧
    (0 < (search_products db cond sortFn page page_size).total →
      ((search_products db cond sortFn page page_size).total_pages : ℤ) =
        ceilSpec (search_products db cond sortFn page page_size).total page_size) ∧
    ((search_products db cond sortFn page page_size).total = 0 →
      (search_products db cond sortFn page page_size).total_pages = 1) := by
  refine ⟨?_, ?_, ?_, ?_, ?_, ?_⟩ <;>
    simp only [list_products_basic, filter_products, search_products,
      PaginationParams.init] <;>
    intro h
  · exact totalPagesCode_pos _ _ hs h
  · rw [h]; exact totalPagesCode_zero _
  · exact totalPagesCode_pos _ _ hs h
  · rw [h]; exact totalPagesCode_zero _
  · exact totalPagesCode_pos _ _ hs h
  · rw [h]; exact totalPagesCode_zero _

/-- C1, witness: the amended theorem applied to a one-document collection. -/
theorem c1_total_pages_witness :
    ((list_products_basic [sampleDoc] 1 20).total_pages : ℤ) =
      ceilSpec (list_products_basic [sampleDoc] 1 20).total 20 :=
  (c1_total_pages_amended [sampleDoc] (fun _ => true) id 1 20 (by decide)).1
    (by decide)

/-- C2: every offset-paginated request with `page ≥ 1` and `page_size ≥ 1`
skips exactly `(page - 1) * page_size` items: the stored `skip` of both
`PaginationParams` dependencies equals `(page - 1) * page_size`, and item `i`
of every returned page is item `(page - 1) * page_size + i` of the full
matching sorted sequence. -/
theorem c2_skip_formula (page page_size i : Nat) (db : List ProductDoc)
    (cond : ProductDoc → Bool) (sortFn : List ProductDoc → List ProductDoc)
    (hp : 1 ≤ page) (hs : 1 ≤ page_size) (hi : i < page_size) :
    (PaginationParams.init page page_size).skip = (page - 1) * page_size ∧
    PaginationParamsPQ.get_skip ⟨page, page_size⟩ = (page - 1) * page_size ∧
    (list_products_basic db page page_size).items[i]? =
      (sortByCreatedDesc (db.filter (·.is_active)))[(page - 1) * page_size + i]? ∧
    (filter_products db cond sortFn (PaginationParams.init page page_size)).items[i]? =
      (sortFn (db.filter cond))[(page - 1) * page_size + i]? ∧
    (search_products db cond sortFn page page_size).items[i]? =
      (sortFn (db.filter (fun p => cond p && p.is_active)))[(page - 1) * page_size + i]? := by
  refine ⟨rfl, rfl, ?_, ?_, ?_⟩ <;>
    simp only [list_products_basic, filter_products, search_products,
      PaginationParams.init] <;>
    rw [List.getElem?_take, if_pos hi, List.getElem?_drop]

/-- C2, witness: page 2 of size 3 over `db3` starts at index 3. -/
theorem c2_skip_formula_witness :
    (PaginationParams.init 2 3).skip = (2 - 1) * 3 ∧
    PaginationParamsPQ.get_skip ⟨2, 3⟩ = (2 - 1) * 3 ∧
    (list_products_basic db3 2 3).items[0]? =
      (sortByCreatedDesc (db3.filter (·.is_active)))[(2 - 1) * 3 + 0]? ∧
    (filter_products db3 (fun _ => true) id (PaginationParams.init 2 3)).items[0]? =
      (id (db3.filter (fun _ => true)))[(2 - 1) * 3 + 0]? ∧
    (search_products db3 (fun _ => true) id 2 3).items[0]? =
      (id (db3.filter (fun p => true && p.is_active)))[(2 - 1) * 3 + 0]? :=
  c2_skip_formula 2 3 0 db3 (fun _ => true) id (by decide) (by decide) (by decide)

lemma mem_insertById {p q : ProductDoc} {l : List ProductDoc}
    (h : q ∈ insertById p l) : q = p ∨ q ∈ l := by
  induction l with
  | nil => simpa [insertById] using h
  | cons a t ih =>
      rw [insertById] at h
      by_cases hc : p.id ≤ a.id
      · rw [if_pos hc] at h
        simp only [List.mem_cons] at h ⊢
        tauto
      · rw [if_neg hc] at h
        simp only [List.mem_cons] at h ⊢
        rcases h with h | h
        · tauto
        · rcases ih h with h' | h' <;> tauto

lemma sorted_insertById {p : ProductDoc} {l : List ProductDoc}
    (h : List.Pairwise (fun a b => a.id ≤ b.id) l) :
    List.Pairwise (fun a b => a.id ≤ b.id) (insertById p l) := by
  induction l with
  | nil => simp [insertById]
  | cons a t ih =>
      rcases List.pairwise_cons.mp h with ⟨ha, ht⟩
      rw [insertById]
      by_cases hc : p.id ≤ a.id
      · rw [if_pos hc]
        refine List.pairwise_cons.mpr ⟨?_, h⟩
        intro q hq
        simp only [List.mem_cons] at hq
        rcases hq with rfl | hq
        · exact hc
        · exact le_trans hc (ha q hq)
      · rw [if_neg hc]
        refine List.pairwise_cons.mpr ⟨?_, ih ht⟩
        intro q hq
        rcases mem_insertById hq with rfl | hq
        · omega
        · exact ha q hq

lemma sorted_sortById (l : List ProductDoc) :
    List.Pairwise (fun a b => a.id ≤ b.id) (sortById l) := by
  induction l with
  | nil => simp [sortById]
  | cons a t ih => exact sorted_insertById ih

/-- C3: cursor pagination fetches (up to) `limit + 1` matching items in
ascending-id order; the response holds at most `limit` items (the prefix of
the fetched list), `has_more` holds exactly when `limit + 1` items were
fetched, `next_cursor` is the id of the last returned item when `has_more`
and `null` otherwise, and the returned items are sorted by ascending id. -/
theorem c3_cursor_pagination (db : List ProductDoc) (cursor : Option Nat)
    (limit : Nat) (category : Option String) (hl : 1 ≤ limit) :
    (list_products_cursor db cursor limit category).items.length ≤ limit ∧
    ((list_products_cursor db cursor limit category).has_more = true ↔
      ((sortById (db.filter (cursorCond cursor category))).take (limit + 1)).length =
        limit + 1) ∧
    ((list_products_cursor db cursor limit category).has_more = true →
      (list_products_cursor db cursor limit category).items =
        ((sortById (db.filter (cursorCond cursor category))).take (limit + 1)).take limit) ∧
    ((list_products_cursor db cursor limit category).has_more = false →
      (list_products_cursor db cursor limit category).items =
        (sortById (db.filter (cursorCond cursor category))).take (limit + 1)) ∧
    ((list_products_cursor db cursor limit category).has_more = true →
      ∃ p, (list_products_cursor db cursor limit category).items.getLast? = some p ∧
        (list_products_cursor db cursor limit category).next_cursor =
          some (toString p.id)) ∧
    ((list_products_cursor db cursor limit category).has_more = false →
      (list_products_cursor db cursor limit category).next_cursor = none) ∧
    List.Pairwise (fun p q => p.id ≤ q.id)
      (list_products_cursor db cursor limit category).items ∧
    (list_products_cursor db cursor limit category).count =
      (list_products_cursor db cursor limit category).items.length := by
  have hsorted := sorted_sortById (db.filter (cursorCond cursor category))
  simp only [list_products_cursor]
  set s := sortById (db.filter (cursorCond cursor category)) with hs
  set fetched := s.take (limit + 1) with hf
  have hflen : fetched.length = min (limit + 1) s.length := List.length_take _ _
  split_ifs with hc
  · have hfl : fetched.length = limit + 1 := by omega
    have hitems : (fetched.take limit).length = limit := by
      rw [List.length_take]
      omega
    have hne : fetched.take limit ≠ [] := by
      intro hnil
      rw [hnil] at hitems
      simp at hitems
      omega
    obtain ⟨p, hp⟩ := Option.isSome_iff_exists.mp (List.getLast?_isSome.mpr hne)
    refine ⟨by omega, ?_, fun _ => rfl, fun hf' => absurd hc (by simpa using hf'),
      fun _ => ⟨p, hp, by rw [hp]; rfl⟩, fun hf' => absurd hc (by simpa using hf'),
      ?_, trivial⟩
    · simp only [decide_eq_true_eq]
      omega
    · exact List.Pairwise.sublist
        ((List.take_sublist _ _).trans (List.take_sublist _ _)) hsorted
  · refine ⟨by omega, ?_, fun ht => absurd (by simpa using ht) hc,
      fun _ => rfl, fun ht => absurd (by simpa using ht) hc, fun _ => rfl, ?_, trivial⟩
    · simp only [decide_eq_true_eq]
      omega
    · exact List.Pairwise.sublist (List.take_sublist _ _) hsorted

/-- C3, witness: the theorem applied to the three-document collection `db3`
with `limit = 1`: two items are fetched, one is returned, `has_more` holds
and the cursor is the last returned id. -/
theorem c3_cursor_pagination_witness :
    (list_products_cursor db3 none 1 none).has_more = true ∧
    (list_products_cursor db3 none 1 none).items.length ≤ 1 ∧
    (list_products_cursor db3 none 1 none).next_cursor = some "1" := by
  have h := c3_cursor_pagination db3 none 1 none (by decide)
  have hm : (list_products_cursor db3 none 1 none).has_more = true :=
    h.2.1.mpr (by decide)
  obtain ⟨p, hp, hnc⟩ := h.2.2.2.2.1 hm
  have hpval : (list_products_cursor db3 none 1 none).items.getLast? =
      some { id := 1, name := "A", description := "", category := "electronics"
             price := 1, stock := 1, tags := [], is_active := true, created_at := 1 } := by
    decide
  rw [hpval] at hp
  have hp' := Option.some.inj hp
  refine ⟨hm, h.1, ?_⟩
  rw [hnc, ← hp']
  decide

/-- C4: in every modelled request handler, an `HTTPException` that the
handler's `try` block can raise propagates to the caller unchanged — same
status code and same detail — and is never wrapped into a different
exception or a generic 500. -/
theorem c4_http_exception_reraised (i : HandlerId) (s : Nat) (d : String)
    (h : canRaise i (.http s d) = true) :
    runChain (handlerChain i) (.http s d) = .http s d := by
  cases i
  case emGetProduct | emProcessPayment | emBadErrorHandling | emGoodErrorHandling
    | spListProductsBasic | spFilterProducts | spSearchProducts
    | spAutocompleteProducts | spFacetedSearch | lgProcessItem
    | teGetProductDetails =>
      exact Bool.noConfusion h
  all_goals simp [handlerChain, runChain, Matcher.catches]

/-- C4, witness: the `400 Invalid product ID format` raised inside
`get_product_by_id`'s `try` block is re-raised as is. -/
theorem c4_http_exception_reraised_witness :
    canRaise .teGetProductById (.http 400 "Invalid product ID format") = true ∧
    runChain (handlerChain .teGetProductById)
        (.http 400 "Invalid product ID format") =
      .http 400 "Invalid product ID format" :=
  ⟨rfl, c4_http_exception_reraised .teGetProductById 400 "Invalid product ID format" rfl⟩

/-- C5, counterexample: the handler `bad_error_handling` (deliberately
labelled an anti-pattern in the source) puts `str(e)` of the unexpected
`ZeroDivisionError` into the `HTTPException` detail, so the detail contains
the text of the original exception. -/
theorem c5_generic_detail_counterexample :
    canRaise .emBadErrorHandling
      (.otherExc "ZeroDivisionError" "division by zero") = true ∧
    runChain (handlerChain .emBadErrorHandling)
        (.otherExc "ZeroDivisionError" "division by zero") =
      .http 500 "Error: division by zero" ∧
    "division by zero".data <:+: "Error: division by zero".data := by
  refine ⟨rfl, rfl, ?_⟩
  decide

/-- C5 (amended): in every modelled request handler except the explicitly
marked anti-pattern `bad_error_handling`, an unexpected exception (one not
named by any specific `except` clause) that the `try` block can raise is
turned into an `HTTPException` with status 500 whose detail is the handler's
fixed generic message, independent of the exception's class and text. -/
theorem c5_generic_detail_amended (i : HandlerId) (n m : String)
    (hne : i ≠ .emBadErrorHandling)
    (h : canRaise i (.otherExc n m) = true) :
    runChain (handlerChain i) (.otherExc n m) = .http 500 (genericDetail i) := by
  cases i
  case emBadErrorHandling => exact absurd rfl hne
  case emHealthCheck | hcGetCurrentUser => exact Bool.noConfusion h
  all_goals simp [handlerChain, runChain, Matcher.catches, genericDetail]

/-- C5, witness: an unexpected `RuntimeError` in `list_products_basic`
becomes `500 Failed to retrieve products`. -/
theorem c5_generic_detail_amended_witness :
    runChain (handlerChain .spListProductsBasic)
        (.otherExc "RuntimeError" "boom") =
      .http 500 (genericDetail .spListProductsBasic) :=
  c5_generic_detail_amended .spListProductsBasic "RuntimeError" "boom"
    (by decide) rfl

/-- C7: for every input to `get_product_details`, the
`InvalidProductIDError` raised by `get_product_or_fail` is mapped to a 400
with the exception's message, the `ProductNotFoundError` to a 404 with the
exception's message, and the handler never returns a 500. -/
theorem c7_domain_exception_mapping (product_id : String) :
    (product_id.length < 3 →
      get_product_details product_id =
        .error (.http 400 ("Invalid product ID: " ++ product_id))) ∧
    (3 ≤ product_id.length →
      get_product_details product_id =
        .error (.http 404 ("Product " ++ product_id ++ " not found"))) ∧
    ∀ d, get_product_details product_id ≠ .error (.http 500 d) := by
  unfold get_product_details get_product_or_fail
  by_cases h : product_id.length < 3
  · rw [if_pos h]
    refine ⟨fun _ => rfl, fun h3 => absurd h (by omega), fun d hcon => ?_⟩
    simp [runChain, handlerChain, Matcher.catches, Exc.pyStr] at hcon
  · rw [if_neg h]
    refine ⟨fun hlt => absurd hlt h, fun _ => rfl, fun d hcon => ?_⟩
    simp [runChain, handlerChain, Matcher.catches, Exc.pyStr] at hcon

/-- C7, witness: a too-short id yields the 400, a well-formed id the 404. -/
theorem c7_domain_exception_mapping_witness :
    get_product_details "x" =
      .error (.http 400 ("Invalid product ID: " ++ "x")) ∧
    get_product_details "abc" =
      .error (.http 404 ("Product " ++ "abc" ++ " not found")) :=
  ⟨(c7_domain_exception_mapping "x").1 (by decide),
   (c7_domain_exception_mapping "abc").2.1 (by decide)⟩

lemma validate_isSome_iff (name category : String) (price : ℚ) (quantity : Int)
    (cost : ℚ) (th : Int) :
    (Product.validate name category price quantity cost th).isSome = true ↔
      (Product.fieldBoundsOk name category price quantity cost th ∧
        round2 cost ≤ round2 price) := by
  simp only [Product.validate, Product.fieldBoundsOk]
  split_ifs with h1 h2 h3 h4 h5 h6 h7
  · exact iff_of_false (by simp) fun h => absurd h.2 (not_le.mpr h7)
  · exact iff_of_true (by simp) ⟨⟨h1, h2, h3, h4, h5, h6⟩, not_lt.mp h7⟩
  · exact iff_of_false (by simp) fun h => h6 h.1.2.2.2.2.2
  · exact iff_of_false (by simp) fun h => h5 h.1.2.2.2.2.1
  · exact iff_of_false (by simp) fun h => h4 h.1.2.2.2.1
  · exact iff_of_false (by simp) fun h => h3 h.1.2.2.1
  · exact iff_of_false (by simp) fun h => h2 h.1.2.1
  · exact iff_of_false (by simp) fun h => h1 h.1.1

lemma dateRange_isSome_iff (start_date end_date : Int) :
    (DateRangeFilter.validate start_date end_date).isSome = true ↔
      (start_date < end_date ∧ (end_date - start_date) / 86400 ≤ 365) := by
  unfold DateRangeFilter.validate
  split_ifs with h1 h2
  · exact iff_of_false (by simp) fun h => absurd h.1 (not_lt.mpr h1)
  · exact iff_of_false (by simp) fun h => absurd h.2 (not_le.mpr h2)
  · exact iff_of_true (by simp) ⟨not_le.mp h1, not_lt.mp h2⟩

lemma passwordReset_isSome_iff (new_password confirm_password : String) :
    (PasswordReset.validate new_password confirm_password).isSome = true ↔
      ((8 ≤ new_password.length ∧ new_password.length ≤ 100) ∧
        new_password.data.any Char.isUpper = true ∧
        new_password.data.any Char.isLower = true ∧
        new_password.data.any Char.isDigit = true ∧
        (8 ≤ confirm_password.length ∧ confirm_password.length ≤ 100) ∧
        new_password = confirm_password) := by
  unfold PasswordReset.validate
  split_ifs with h1 h2 h3 h4 h5 h6
  · exact iff_of_false (by simp) fun h => h6 h.2.2.2.2.2
  · exact iff_of_true (by simp) ⟨h1, h2, h3, h4, h5, not_not.mp h6⟩
  · exact iff_of_false (by simp) fun h => h5 h.2.2.2.2.1
  · exact iff_of_false (by simp) fun h => h4 h.2.2.2.1
  · exact iff_of_false (by simp) fun h => h3 h.2.2.1
  · exact iff_of_false (by simp) fun h => h2 h.2.1
  · exact iff_of_false (by simp) fun h => h1 h.1

/-- C6, counterexample: a `Product` assignment in which every field
individually satisfies its declared bounds (`price = 1 > 0`, `cost = 2 > 0`,
…) is rejected by model construction, because the cross-field
`validate_profit_margin` model validator requires `price ≥ cost`. -/
theorem c6_no_cross_field_counterexample :
    Product.fieldBoundsOk "Widget" "Toys" 1 5 2 5 ∧
    Product.validate "Widget" "Toys" 1 5 2 5 = none := by
  have hb : Product.fieldBoundsOk "Widget" "Toys" 1 5 2 5 := by
    unfold Product.fieldBoundsOk
    refine ⟨⟨by decide, by decide⟩, ⟨by decide, by decide⟩, by norm_num,
      by decide, by norm_num, by decide⟩
  refine ⟨hb, ?_⟩
  have h1 : round2 ((1 : ℚ)) = 1 := by
    have h := round2_intCast 1
    norm_num at h
    exact h
  have h2 : round2 ((2 : ℚ)) = 2 := by
    have h := round2_intCast 2
    norm_num at h
    exact h
  have hno : ¬ ((Product.validate "Widget" "Toys" 1 5 2 5).isSome = true) := by
    rw [validate_isSome_iff]
    rintro ⟨-, hle⟩
    rw [h1, h2] at hle
    norm_num at hle
  rw [← Option.not_isSome_iff_eq_none]
  simpa using hno

/-- C6 (amended): the schema entities do enforce cross-field invariants
beyond per-field validation, via `model_validator`s: `Product` construction
succeeds iff the per-field bounds hold and additionally
`round2 cost ≤ round2 price`; `DateRangeFilter` requires
`start_date < end_date` and a range of at most 365 days; `PasswordReset`
additionally requires the two password fields to be equal. -/
theorem c6_cross_field_validators :
    (∀ (name category : String) (price : ℚ) (quantity : Int) (cost : ℚ) (th : Int),
      (Product.validate name category price quantity cost th).isSome = true ↔
        (Product.fieldBoundsOk name category price quantity cost th ∧
          round2 cost ≤ round2 price)) ∧
    (∀ start_date end_date : Int,
      (DateRangeFilter.validate start_date end_date).isSome = true ↔
        (start_date < end_date ∧ (end_date - start_date) / 86400 ≤ 365)) ∧
    (∀ new_password confirm_password : String,
      (PasswordReset.validate new_password confirm_password).isSome = true ↔
        ((8 ≤ new_password.length ∧ new_password.length ≤ 100) ∧
          new_password.data.any Char.isUpper = true ∧
          new_password.data.any Char.isLower = true ∧
          new_password.data.any Char.isDigit = true ∧
          (8 ≤ confirm_password.length ∧ confirm_password.length ≤ 100) ∧
          new_password = confirm_password)) :=
  ⟨validate_isSome_iff, dateRange_isSome_iff, passwordReset_isSome_iff⟩

lemma assocFind_assocSet {α : Type} (l : List (String × α)) (k : String)
    (v v' : α) (h : assocFind l k = some v) :
    assocFind (assocSet l k v') k = some v' := by
  induction l with
  | nil => simp [assocFind] at h
  | cons a t ih =>
      obtain ⟨ka, va⟩ := a
      by_cases hk : ka = k
      · simp [assocFind, assocSet, hk]
      · simp only [assocFind, assocSet, if_neg hk] at h ⊢
        exact ih h

/-- C8: for an existing product, `adjust_stock` rejects an adjustment that
would make the quantity negative with a 400 and leaves the stored quantity
unchanged; otherwise it succeeds and the stored quantity becomes
`quantity + adjustment`.  Hence (the stored quantity being non-negative, as
model validation guarantees) the quantity is never negative after any
adjust-stock operation. -/
theorem c8_adjust_stock_safe (db : List (String × Product)) (product_id : String)
    (adjustment : Int) (p : Product)
    (hfind : assocFind db product_id = some p) :
    (p.quantity + adjustment < 0 →
      adjust_stock db product_id adjustment =
        (.error (.http 400 ("Cannot remove " ++ toString adjustment.natAbs ++
          " items. Only " ++ toString p.quantity ++ " in stock.")), db)) ∧
    (0 ≤ p.quantity + adjustment →
      ∃ p', adjust_stock db product_id adjustment =
          (.ok p', assocSet db product_id p') ∧
        p'.quantity = p.quantity + adjustment ∧
        assocFind (adjust_stock db product_id adjustment).2 product_id = some p') ∧
    (0 ≤ p.quantity →
      ∀ q, assocFind (adjust_stock db product_id adjustment).2 product_id = some q →
        0 ≤ q.quantity) := by
  simp only [adjust_stock, hfind]
  by_cases hneg : p.quantity + adjustment < 0
  · rw [if_pos hneg]
    refine ⟨fun _ => rfl, fun hpos => absurd hneg (by omega), fun h0 q hq => ?_⟩
    rw [hfind] at hq
    cases hq
    exact h0
  · rw [if_neg hneg]
    push_neg at hneg
    have hset := assocFind_assocSet db product_id p
      { p with quantity := p.quantity + adjustment } hfind
    refine ⟨fun hcon => absurd hcon (by omega),
      fun _ => ⟨{ p with quantity := p.quantity + adjustment }, rfl, rfl, hset⟩,
      fun h0 q hq => ?_⟩
    rw [hset] at hq
    cases hq
    exact hneg

/-- C8, witness: removing 7 items from a stock of 5 fails with the 400 and
leaves the collection unchanged. -/
theorem c8_adjust_stock_safe_witness :
    adjust_stock [("p1", sampleProduct)] "p1" (-7) =
      (.error (.http 400 ("Cannot remove " ++ toString (Int.natAbs (-7)) ++
        " items. Only " ++ toString sampleProduct.quantity ++ " in stock.")),
       [("p1", sampleProduct)]) :=
  (c8_adjust_stock_safe [("p1", sampleProduct)] "p1" (-7) sampleProduct rfl).1
    (by decide)

lemma validate_quantity_nonneg (name category : String) (price : ℚ)
    (quantity : Int) (cost : ℚ) (th : Int) (p : Product)
    (h : Product.validate name category price quantity cost th = some p) :
    0 ≤ p.quantity := by
  simp only [Product.validate] at h
  split_ifs at h with h1 h2 h3 h4 h5 h6 h7
  rw [Option.some.injEq] at h
  subst h
  exact h4

/-- C9: for every `Product` accepted by model validation, the computed
fields are mutually consistent: `stock_status` is one of the three statuses,
`in_stock` holds iff `quantity > 0`, and `in_stock` holds iff `stock_status`
is not `out_of_stock`. -/
theorem c9_computed_fields_consistent (name category : String) (price : ℚ)
    (quantity : Int) (cost : ℚ) (th : Int) (p : Product)
    (h : Product.validate name category price quantity cost th = some p) :
    (p.stock_status = "out_of_stock" ∨ p.stock_status = "low_stock" ∨
      p.stock_status = "in_stock") ∧
    (p.in_stock = true ↔ 0 < p.quantity) ∧
    (p.in_stock = true ↔ p.stock_status ≠ "out_of_stock") := by
  have hq := validate_quantity_nonneg name category price quantity cost th p h
  unfold Product.in_stock Product.stock_status
  refine ⟨?_, by simp, ?_⟩
  · split_ifs <;> simp
  · by_cases h0 : p.quantity = 0
    · rw [if_pos h0]
      simp [h0]
    · rw [if_neg h0]
      have hpos : 0 < p.quantity := by omega
      split_ifs <;> simp [hpos]

lemma round2_ten : round2 ((10 : ℚ)) = 10 := by
  have h := round2_intCast 10
  norm_num at h
  exact h

lemma round2_four : round2 ((4 : ℚ)) = 4 := by
  have h := round2_intCast 4
  norm_num at h
  exact h

lemma validate_sample :
    Product.validate "Widget" "Toys" 10 5 4 5 = some sampleProduct := by
  have hW : normalize_text "Widget" = "Widget" := by decide
  have hT : normalize_text "Toys" = "Toys" := by decide
  simp only [Product.validate]
  rw [if_neg (not_not_intro (by decide : 1 ≤ "Widget".length ∧ "Widget".length ≤ 150))]
  rw [if_neg (not_not_intro (by decide : 1 ≤ "Toys".length ∧ "Toys".length ≤ 150))]
  rw [if_neg (not_not_intro (by norm_num : (0 : ℚ) < 10))]
  rw [if_neg (not_not_intro (by decide : (0 : ℤ) ≤ 5))]
  rw [if_neg (not_not_intro (by norm_num : (0 : ℚ) < 4))]
  rw [if_neg (not_not_intro (by decide : (0 : ℤ) ≤ 5))]
  rw [if_neg (not_lt.mpr (by rw [round2_ten, round2_four]; norm_num))]
  rw [hW, hT, round2_ten, round2_four]
  rfl

/-- C9, witness: the theorem applied to a concretely constructed product
(quantity 5, threshold 5, hence `low_stock` and `in_stock = true`). -/
theorem c9_computed_fields_consistent_witness :
    (sampleProduct.stock_status = "out_of_stock" ∨
      sampleProduct.stock_status = "low_stock" ∨
      sampleProduct.stock_status = "in_stock") ∧
    (sampleProduct.in_stock = true ↔ 0 < sampleProduct.quantity) ∧
    (sampleProduct.in_stock = true ↔ sampleProduct.stock_status ≠ "out_of_stock") :=
  c9_computed_fields_consistent "Widget" "Toys" 10 5 4 5 sampleProduct
    validate_sample

/-- C10, counterexample: the claim forbids handlers from reading
module-level mutable data, but `login` reads the module-level `MOCK_USERS`
dict: with the dict as initialised by the module the login succeeds, with the
same dict emptied (it is mutable) the same request yields a 401, so the
handler's response depends on module-level mutable state. -/
theorem c10_module_state_counterexample :
    (login hcSourceStore "john_doe" "hashed_password_here").1 =
      .ok (jwtEncode "user-123") ∧
    (login hcEmptyUsersStore "john_doe" "hashed_password_here").1 =
      .error (.http 401 "Incorrect username or password") ∧
    (login hcSourceStore "john_doe" "hashed_password_here").1 ≠
      (login hcEmptyUsersStore "john_doe" "hashed_password_here").1 := by
  refine ⟨rfl, rfl, ?_⟩
  intro hcon
  rw [show (login hcSourceStore "john_doe" "hashed_password_here").1 =
        .ok (jwtEncode "user-123") from rfl,
    show (login hcEmptyUsersStore "john_doe" "hashed_password_here").1 =
        .error (.http 401 "Incorrect username or password") from rfl] at hcon
  exact Except.noConfusion hcon

/-- C10 (amended): no handler of the header/cookie module writes
module-level state — every modelled handler returns the module store
unchanged — and the module-level `MOCK_SESSIONS` dict is never read or
written: no handler's response depends on it.  (Handlers do read the
module-level `MOCK_USERS` dict and `VALID_API_KEYS` set as fixtures.) -/
theorem c10_no_state_writes :
    (∀ (store : HCModuleStore) (u pw : String), (login store u pw).2 = store) ∧
    (∀ (store : HCModuleStore) (tok : String),
      (get_current_user store tok).2 = store) ∧
    (∀ (store : HCModuleStore) (k : String), (verify_api_key store k).2 = store) ∧
    (∀ (store : HCModuleStore) (sess : List (String × String)) (u pw : String),
      (login { store with mock_sessions := sess } u pw).1 = (login store u pw).1) ∧
    (∀ (store : HCModuleStore) (sess : List (String × String)) (tok : String),
      (get_current_user { store with mock_sessions := sess } tok).1 =
        (get_current_user store tok).1) ∧
    (∀ (store : HCModuleStore) (sess : List (String × String)) (k : String),
      (verify_api_key { store with mock_sessions := sess } k).1 =
        (verify_api_key store k).1) := by
  refine ⟨?_, ?_, ?_, ?_, ?_, ?_⟩
  · intro store u pw
    simp only [login]
    cases assocFind store.mock_users u
    · rfl
    · dsimp only
      split_ifs <;> rfl
  · intro store tok
    simp only [get_current_user]
    cases jwtDecode tok with
    | none => rfl
    | some uid =>
        dsimp only
        split_ifs with h
        · rfl
        · cases findUserById store.mock_users uid
          · rfl
          · dsimp only
            split_ifs <;> rfl
  · intro store k
    simp only [verify_api_key]
    split_ifs <;> rfl
  · intro store sess u pw
    simp only [login]
    cases assocFind store.mock_users u
    · rfl
    · dsimp only
      split_ifs <;> rfl
  · intro store sess tok
    simp only [get_current_user]
    cases jwtDecode tok with
    | none => rfl
    | some uid =>
        dsimp only
        split_ifs with h
        · rfl
        · cases findUserById store.mock_users uid
          · rfl
          · dsimp only
            split_ifs <;> rfl
  · intro store sess k
    simp only [verify_api_key]
    split_ifs <;> rfl

end FastapiBoilerplates
